import Mathlib

/-!
Verification of the Phonodex metadata resolution engine.

This file gives a shallow embedding of the engine's components as they are
written in the source:

* `src/api_client.py` — `make_api_request`, `enforce_api_limit`,
  `update_rate_limits_from_headers` (the rate limiter and request executor of
  the refactored module);
* `src/main.py` (lines 2083–2123) — the application's own `make_api_request`
  variant, which integrates the rate limiter inline;
* `src/utils/metadata.py` — `fetch_metadata` and `select_by_frequency`
  (the resolver, candidate matcher and caches).

Python strings are modelled by Lean `String` restricted to their ASCII
behaviour (all inputs appearing in the properties are ASCII).  Python floats
(`time.time()` values) are modelled by `Rat`: the rate-limit logic only
compares and subtracts times, so exactness of the embedding is preserved.
JSON integer fields (`year`) are modelled by their decimal-string form, since
the code immediately converts them with `str(...)`.
-/

/-- Python `str.strip`'s whitespace test, restricted to ASCII
(`' '`, `\t`, `\n`, `\r`, `\x0b`, `\x0c`). -/
def isPySpace (c : Char) : Bool :=
  c == ' ' || c == '\t' || c == '\n' || c == '\r' || c == '\x0B' || c == '\x0C'

/-- Drop trailing characters satisfying `p` (helper for `pyStrip`). -/
def dropEndWhile (p : Char → Bool) (l : List Char) : List Char :=
  (l.reverse.dropWhile p).reverse

/-- Python `s.strip()` on the character list. -/
def stripL (l : List Char) : List Char :=
  dropEndWhile isPySpace (l.dropWhile isPySpace)

/-- Python `s.strip()`. -/
def pyStripS (s : String) : String := ⟨stripL s.data⟩

/-- The lowercase-to-uppercase table of ASCII letters. -/
def upPairs : List (Char × Char) :=
  [('a', 'A'), ('b', 'B'), ('c', 'C'), ('d', 'D'), ('e', 'E'), ('f', 'F'),
   ('g', 'G'), ('h', 'H'), ('i', 'I'), ('j', 'J'), ('k', 'K'), ('l', 'L'),
   ('m', 'M'), ('n', 'N'), ('o', 'O'), ('p', 'P'), ('q', 'Q'), ('r', 'R'),
   ('s', 'S'), ('t', 'T'), ('u', 'U'), ('v', 'V'), ('w', 'W'), ('x', 'X'),
   ('y', 'Y'), ('z', 'Z')]

/-- ASCII uppercase of one character, as Python `str.upper` acts on ASCII. -/
def upCh (c : Char) : Char :=
  match upPairs.find? (fun p => p.1 == c) with
  | some p => p.2
  | none => c

/-- ASCII lowercase of one character, as Python `str.lower` acts on ASCII. -/
def loCh (c : Char) : Char :=
  match upPairs.find? (fun p => p.2 == c) with
  | some p => p.1
  | none => c

/-- Python `s.upper()` (ASCII). -/
def pyUpperS (s : String) : String := ⟨s.data.map upCh⟩

/-- Python `s.lower()` (ASCII). -/
def pyLowerS (s : String) : String := ⟨s.data.map loCh⟩

/-- Python `s.replace(" ", "")`: removing every space character. -/
def removeSpacesS (s : String) : String := ⟨s.data.filter (fun c => !(c == ' '))⟩

/-- Does `l` start with `sep`? (helper for Python substring tests). -/
def startsWithL : List Char → List Char → Bool
  | [], _ => true
  | _ :: _, [] => false
  | a :: as, b :: bs => a == b && startsWithL as bs

/-- Does `needle` occur as a contiguous substring of the second list?
Models Python's `needle in haystack` for strings. -/
def occursL (needle : List Char) : List Char → Bool
  | [] => needle.isEmpty
  | c :: rest => startsWithL needle (c :: rest) || occursL needle rest

/-- Python `sub in s` for strings. -/
def pyInS (sub s : String) : Bool := occursL sub.data s.data

/-- Python `s.split(sep)` on character lists, structurally recursive on a
fuel bound.  Each step consumes at least one character and exactly one unit
of fuel, so with initial fuel `l.length` (as `splitL` passes) the
fuel-exhausted case is unreachable. -/
def splitFuelL (sep : List Char) : Nat → List Char → List (List Char)
  | _, [] => [[]]
  | 0, l => [l]
  | fuel + 1, c :: rest =>
    if !sep.isEmpty && startsWithL sep (c :: rest) then
      [] :: splitFuelL sep fuel (List.drop (sep.length - 1) rest)
    else
      match splitFuelL sep fuel rest with
      | [] => [[c]]
      | chunk :: chunks => (c :: chunk) :: chunks

/-- Python `s.split(sep)` for a non-empty separator, on character lists. -/
def splitL (sep l : List Char) : List (List Char) := splitFuelL sep l.length l

/-- Python `s.split(sep)` for strings (non-empty separator). -/
def pySplit (s sep : String) : List String :=
  (splitL sep.data s.data).map (fun l => ⟨l⟩)

/-- The numeric value of a list of decimal digit characters. -/
def digitsToNat (l : List Char) : Nat :=
  l.foldl (fun n c => 10 * n + (c.toNat - 48)) 0

/-- Python `int(s)` for a string: strips whitespace, accepts an optional
sign followed by one or more ASCII digits, otherwise raises (modelled as
`none`).  (Python additionally accepts underscores between digits and
non-ASCII digits; those refinements are irrelevant to the values handled
here and a string rejected by this model is also rejected by Python
whenever it contains a non-digit, non-sign, non-underscore character.) -/
def pyIntParse (s : String) : Option Int :=
  let t := stripL s.data
  let signAndDigits : Int × List Char :=
    match t with
    | '+' :: rest => (1, rest)
    | '-' :: rest => (-1, rest)
    | _ => (1, t)
  if !signAndDigits.2.isEmpty && signAndDigits.2.all Char.isDigit then
    some (signAndDigits.1 * (digitsToNat signAndDigits.2 : Int))
  else
    none

/-! ## Candidate records and resolved metadata (src/utils/metadata.py) -/

/-- One Discogs search result, as consumed by `fetch_metadata`
(`src/utils/metadata.py`).  A missing `title` key is `none` (the code reads
it with `release.get('title', '')` during matching and
`release.get('title', album)` when building the result); `catno`,
`cover_image` and `thumb` are read with default `""`, so they are plain
strings; `year` is the decimal-string form of the JSON value, `none` when
absent. -/
structure Release where
  title : Option String
  catno : String
  year : Option String
  cover_image : String
  thumb : String
deriving DecidableEq

/-- The metadata dictionary built at the end of `fetch_metadata`. -/
structure FetchedMetadata where
  catalog_number : String
  year : String
  album : String
  cover_image : String
  thumb : String
deriving DecidableEq

/-- The artist fuzzy test of `fetch_metadata`:
`release_artist.lower() == artist.lower() or release_artist.lower() in
artist.lower() or artist.lower() in release_artist.lower()`. -/
def artistMatchB (artist relArtist : String) : Bool :=
  decide (pyLowerS relArtist = pyLowerS artist) ||
  pyInS (pyLowerS relArtist) (pyLowerS artist) ||
  pyInS (pyLowerS artist) (pyLowerS relArtist)

/-- The album fuzzy test of `fetch_metadata` (same three-way containment). -/
def albumMatchB (album relAlbum : String) : Bool :=
  decide (pyLowerS relAlbum = pyLowerS album) ||
  pyInS (pyLowerS relAlbum) (pyLowerS album) ||
  pyInS (pyLowerS album) (pyLowerS relAlbum)

/-- The artist part of a lowered display title: `title.split(' - ')[0].strip()`. -/
def releaseArtistOf (t : String) : String :=
  pyStripS ((pySplit t " - ").headD "")

/-- The album part of a lowered display title:
`' - '.join(title.split(' - ')[1:]).strip()`. -/
def releaseAlbumOf (t : String) : String :=
  pyStripS (String.intercalate " - " ((pySplit t " - ").drop 1))

/-- Stage 1 of the matcher: the `exact_album_matches` list
(`src/utils/metadata.py`, fetch_metadata).  Titles with a `" - "` separator
must pass both fuzzy tests; titles without one match by whole-title
containment against the album. -/
def exactAlbumMatches (artist album : String) (releases : List Release) : List Release :=
  releases.filter (fun r =>
    let t := pyLowerS (r.title.getD "")
    if pyInS " - " t then
      artistMatchB artist (releaseArtistOf t) && albumMatchB album (releaseAlbumOf t)
    else
      pyInS (pyLowerS album) t || pyInS t (pyLowerS album))

/-- The `exact_artist_matches` fallback of stage 1 (artist test only,
separator-bearing titles only). -/
def exactArtistMatches (artist : String) (releases : List Release) : List Release :=
  releases.filter (fun r =>
    let t := pyLowerS (r.title.getD "")
    pyInS " - " t && artistMatchB artist (releaseArtistOf t))

/-- `target_releases`: stage-1 matches, else artist-only matches, else the
full list. -/
def targetReleases (artist album : String) (releases : List Release) : List Release :=
  let eam := exactAlbumMatches artist album releases
  if !eam.isEmpty then eam
  else
    let aom := exactArtistMatches artist releases
    if !aom.isEmpty then aom else releases

/-- Stage 2: `exact_album_title_matches` — the album portion (or, without a
separator, the whole lowered title) equals the queried album
case-insensitively. -/
def exactAlbumTitleMatches (album : String) (target : List Release) : List Release :=
  target.filter (fun r =>
    let t := pyLowerS (r.title.getD "")
    let relAlbum := if pyInS " - " t then releaseAlbumOf t else t
    decide (pyLowerS relAlbum = pyLowerS album))

/-- A usable catalog number: non-empty after stripping and not the literal
"NONE" (`catno.strip().upper() != "NONE" and catno.strip() != ""`). -/
def validCat (catno : String) : Bool :=
  !(pyStripS catno).isEmpty && decide (pyUpperS (pyStripS catno) ≠ "NONE")

/-- `filtered_releases`: exact-title matches narrowed to those with usable
catalogs when any exist; otherwise the target set narrowed the same way. -/
def filteredReleases (artist album : String) (releases : List Release) : List Release :=
  let target := targetReleases artist album releases
  let etm := exactAlbumTitleMatches album target
  if !etm.isEmpty then
    let nn := etm.filter (fun r => validCat r.catno)
    if !nn.isEmpty then nn else etm
  else
    let nn := target.filter (fun r => validCat r.catno)
    if !nn.isEmpty then nn else target

/-- `r.get("year") and str(r.get("year")).isdigit()`: the year is present
and all digits. -/
def hasDigitYear (r : Release) : Bool :=
  match r.year with
  | none => false
  | some y => !y.isEmpty && y.data.all Char.isDigit

/-- The sort key `int(r.get("year", 9999))`. -/
def yearKey (r : Release) : Nat :=
  match r.year with
  | none => 9999
  | some y => digitsToNat y.data

/-- Stable insertion (a later element goes after earlier elements with a
key ≤ its own), matching the stability of Python's `list.sort`. -/
def insertByKey (key : Release → Nat) (r : Release) : List Release → List Release
  | [] => [r]
  | x :: xs => if key x ≤ key r then x :: insertByKey key r xs else r :: x :: xs

/-- Stable ascending sort by key, matching Python's stable `list.sort`. -/
def sortByKey (key : Release → Nat) (l : List Release) : List Release :=
  l.foldl (fun acc r => insertByKey key r acc) []

/-- The normalization `catno.replace(" ", "").upper()` applied to an
already-stripped catalog string. -/
def normCat (strippedCatno : String) : String :=
  pyUpperS (removeSpacesS strippedCatno)

/-- First-occurrence de-duplication (helper for `collections.Counter`). -/
def dedupFirstAux (seen : List String) : List String → List String
  | [] => []
  | x :: xs => if x ∈ seen then dedupFirstAux seen xs else x :: dedupFirstAux (x :: seen) xs

/-- The distinct elements of a list in first-occurrence order. -/
def dedupFirst (l : List String) : List String := dedupFirstAux [] l

/-- Stable insertion for descending-count order (ties keep earlier elements
first, as `Counter.most_common` documents). -/
def insertDescByCount (p : String × Nat) : List (String × Nat) → List (String × Nat)
  | [] => [p]
  | q :: qs => if p.2 ≤ q.2 then q :: insertDescByCount p qs else p :: q :: qs

/-- Count pairs sorted by descending count, ties in first-occurrence order. -/
def sortDescByCount (l : List (String × Nat)) : List (String × Nat) :=
  l.foldl (fun acc p => insertDescByCount p acc) []

/-- `Counter(all_catalog_numbers).most_common(2)`. -/
def mostCommonTwo (l : List String) : List (String × Nat) :=
  (sortDescByCount ((dedupFirst l).map (fun c => (c, l.count c)))).take 2

/-- The `all_catalog_numbers` accumulation at the top of
`select_by_frequency`: the stripped, uppercased catalog values that are
non-empty and not "NONE". -/
def allCatalogNumbers (releases : List Release) : List String :=
  releases.filterMap (fun r =>
    let c := pyStripS r.catno
    if !c.isEmpty && decide (pyUpperS c ≠ "NONE") then some (pyUpperS c) else none)

/-- `select_by_frequency` (src/utils/metadata.py, lines 225–298): pick a
release by catalog-number frequency.  Returns the pair
`(selected_release, normalized_catalog_number)`; Python's `(None, None)`
is `(none, none)`.  The `most_common[1]` access is guarded in the model by
`getD` — it is reached only when `len(most_common) > 1`, since the elements
of `all_catalog_numbers` are non-empty. -/
def select_by_frequency (releases : List Release) : Option Release × Option String :=
  let allCats := allCatalogNumbers releases
  if allCats.isEmpty then
    match releases.find? (fun r => !(pyStripS r.catno).isEmpty) with
    | some r => (some r, some (normCat (pyStripS r.catno)))
    | none =>
      match releases with
      | r :: _ => (some r, some "UNKNOWN")
      | [] => (none, none)
  else
    let mostCommon := mostCommonTwo allCats
    let normalized0 := normCat ((mostCommon.headD ("", 0)).1)
    let normalized :=
      if (decide (1 < mostCommon.length) && decide (normalized0 = "NONE")) ||
         decide (normalized0 = "") then
        normCat ((mostCommon.getD 1 ("", 0)).1)
      else normalized0
    let matching := releases.find? (fun r =>
      decide (removeSpacesS (pyUpperS (pyStripS r.catno)) = normalized))
    match matching with
    | some r => (some r, some normalized)
    | none =>
      match releases with
      | r :: _ => (some r, some normalized)
      | [] => (none, some normalized)

/-- The predicate of the oldest-release re-verification loop: a candidate is
acceptable if its title has a `" - "` separator and its artist portion
fuzzy-matches, or, lacking a separator, if stage 1 produced exact album
matches and the candidate is one of them. -/
def oldestOkB (artist : String) (eam : List Release) (r : Release) : Bool :=
  let t := pyLowerS (r.title.getD "")
  if pyInS " - " t then
    artistMatchB artist (releaseArtistOf t)
  else
    !eam.isEmpty && decide (r ∈ eam)

/-- The year-branch selection of `fetch_metadata`: sort the year-bearing
candidates ascending (stably), take the first whose artist re-verifies
(falling back to the overall oldest), then accept its catalog, accept the
"NONE" placeholder for an exact-title match, or fall back to
`select_by_frequency`. -/
def yearBranch (artist : String) (eam etm filtered : List Release)
    (releasesWithYear : List Release) : Option Release × Option String :=
  let sorted := sortByKey yearKey releasesWithYear
  let oldest :=
    match sorted.find? (fun r => oldestOkB artist eam r) with
    | some r => some r
    | none => sorted.head?
  match oldest with
  | none => select_by_frequency filtered
  | some o =>
    let catno := pyStripS o.catno
    if !catno.isEmpty && decide (pyUpperS catno ≠ "NONE") then
      (some o, some (normCat catno))
    else if !etm.isEmpty && decide (o ∈ etm) then
      (some o, some "NONE")
    else
      select_by_frequency filtered

/-- The selection and metadata-construction part of `fetch_metadata`
(src/utils/metadata.py, from the `exact_album_matches` computation to the
`metadata` dictionary).  `artist` and `album` are the already-stripped
query strings; `releases` is `response_data["results"]`.  Returns the
`metadata` dictionary, or `none` where the code returns `None, None`. -/
def fetch_metadata_select (artist album : String) (releases : List Release) :
    Option FetchedMetadata :=
  let eam := exactAlbumMatches artist album releases
  let target := targetReleases artist album releases
  let etm := exactAlbumTitleMatches album target
  let filtered := filteredReleases artist album releases
  if filtered.isEmpty then none
  else
    let releasesWithYear := filtered.filter hasDigitYear
    let sel :=
      if !releasesWithYear.isEmpty then
        yearBranch artist eam etm filtered releasesWithYear
      else
        select_by_frequency filtered
    let sel2 :=
      if sel.1.isNone || decide (sel.2.getD "" = "") then
        match filtered.find? (fun r => validCat r.catno) with
        | some r => (some r, some (normCat (pyStripS r.catno)))
        | none => (none, (none : Option String))
      else sel
    match sel2 with
    | (some r, some cat) =>
      if decide (cat = "") then none
      else
        some { catalog_number := cat
               year := r.year.getD ""
               album := r.title.getD album
               cover_image := r.cover_image
               thumb := r.thumb }
    | _ => none

/-! ## Rate limiter (src/api_client.py) -/

/-- The module-level rate-limit globals of `src/api_client.py`:
`rate_limit_total`, `rate_limit_used`, `rate_limit_remaining`,
`first_request_time` (0 means "no window started"). -/
structure RLState where
  total : Int
  used : Int
  remaining : Int
  firstRequestTime : Rat
deriving DecidableEq

/-- `Config.API["RATE_LIMIT"]` (src/config.py). -/
def RATE_LIMIT : Int := 60

/-- `Config.API_RATE_LIMIT_WAIT` in seconds (src/config.py). -/
def API_RATE_LIMIT_WAIT : Rat := 60

/-- The state at process start: total = remaining = 60, used = 0, no window. -/
def initRLState : RLState :=
  { total := RATE_LIMIT, used := 0, remaining := RATE_LIMIT, firstRequestTime := 0 }

/-- The rate-limit response headers, already parsed to integers
(`X-Discogs-Ratelimit`, `X-Discogs-Ratelimit-Used`,
`X-Discogs-Ratelimit-Remaining`); a missing header is `none`. -/
structure RLHeaders where
  ratelimit : Option Int
  ratelimitUsed : Option Int
  ratelimitRemaining : Option Int
deriving DecidableEq

/-- The window-expiry condition of `enforce_api_limit`:
`first_request_time == 0 or time_since_first_request >= WAIT`, where
`time_since_first_request` is `now - first_request_time` if
`first_request_time > 0` and `+inf` otherwise. -/
def windowExpiredB (s : RLState) (now : Rat) : Bool :=
  decide (s.firstRequestTime = 0) ||
  (if 0 < s.firstRequestTime then decide (API_RATE_LIMIT_WAIT ≤ now - s.firstRequestTime)
   else true)

/-- `enforce_api_limit` (src/api_client.py, lines 105–144), the spec's
`RateLimiter.tryAcquire`.  Returns the new state, the returned boolean
(`rate_limit_remaining > 0` after any mutation), and the slept duration
(`none` when the call did not sleep).  The post-sleep
`first_request_time = time.time()` is `now + wait`. -/
def enforce_api_limit (s : RLState) (now : Rat) : RLState × Bool × Option Rat :=
  if windowExpiredB s now then
    let s' := { s with firstRequestTime := now, remaining := s.total, used := 0 }
    (s', decide (0 < s'.remaining), none)
  else if s.remaining ≤ 0 then
    let wait := API_RATE_LIMIT_WAIT - (now - s.firstRequestTime)
    let s' := { s with firstRequestTime := now + wait, remaining := s.total, used := 0 }
    (s', decide (0 < s'.remaining), some wait)
  else
    (s, decide (0 < s.remaining), none)

/-- `update_rate_limits_from_headers` (src/api_client.py, lines 146–204),
the spec's `RateLimiter.observe`, with the progress-bar callbacks dropped
(they do not touch the rate-limit state).  `headers = none` models the
"not a dictionary-like object" failsafe branch.  With the
`X-Discogs-Ratelimit` header present, total, used and remaining are all
overwritten from the headers (`used` defaulting to 0 and `remaining` to
`total - used` over the freshly assigned values), and the window start is
set to `now` if unset; otherwise used is incremented and remaining
decremented with floor 0. -/
def update_rate_limits_from_headers (s : RLState) (headers : Option RLHeaders)
    (now : Rat) : RLState :=
  match headers with
  | none =>
    { s with used := s.used + 1, remaining := max 0 (s.remaining - 1) }
  | some h =>
    match h.ratelimit with
    | some t =>
      let used := h.ratelimitUsed.getD 0
      let remaining := h.ratelimitRemaining.getD (t - used)
      { total := t, used := used, remaining := remaining
        firstRequestTime := if s.firstRequestTime = 0 then now else s.firstRequestTime }
    | none =>
      { s with used := s.used + 1, remaining := max 0 (s.remaining - 1) }

/-! ## The resolver `fetch_metadata` and its caches (src/utils/metadata.py) -/

/-- The process-wide caches of `src/utils/metadata.py`:
`album_catalog_cache` as an association list (newest entry first) and
`failed_search_cache` as a membership list. -/
structure CacheState where
  pos : List (String × FetchedMetadata)
  failed : List String
deriving DecidableEq

/-- Lookup in the positive cache. -/
def lookupPos (key : String) (c : CacheState) : Option FetchedMetadata :=
  (c.pos.find? (fun p => decide (p.1 = key))).map (fun p => p.2)

/-- The parsed body of one successful search response
(`response_data["results"]`; pagination fields are only logged). -/
structure SearchResponse where
  results : List Release
deriving DecidableEq

/-- The outcome of one `make_api_request` call as seen by `fetch_metadata`:
`none` is the `(None, None)` failure, `some (body, headers)` a parsed JSON
body with the response headers. -/
def QueryResult : Type := Option (SearchResponse × RLHeaders)

/-- `not response_data or not response_data.get("results")` negated: the
query produced a body with a non-empty results list. -/
def hasResults (q : QueryResult) : Bool :=
  match q with
  | some (body, _) => !body.results.isEmpty
  | none => false

/-- The result of one `fetch_metadata` call: the metadata (or `None`), the
returned response headers (or `None`), the caches after the call, and the
number of `make_api_request` calls issued. -/
structure FetchResult where
  metadata : Option FetchedMetadata
  headers : Option RLHeaders
  cache : CacheState
  requests : Nat
deriving DecidableEq

/-- Python truthiness of an optional-string argument (`None` and `""` are
falsy). -/
def optFalsy (o : Option String) : Bool := (o.getD "").isEmpty

/-- The query cascade of `fetch_metadata`: query 1 always runs; on no
results query 2 runs; on still no results query 3 runs when a stripped
title is truthy and differs case-insensitively from the album.  Returns
the last response obtained and how many queries were issued.
`q1`, `q2`, `q3` are the oracle outcomes of the three possible
`make_api_request` calls. -/
def queryPhase (titleTry : Bool) (q1 q2 q3 : QueryResult) : QueryResult × Nat :=
  if hasResults q1 then (q1, 1)
  else if hasResults q2 then (q2, 2)
  else if titleTry then (q3, 3)
  else (q2, 2)

/-- `fetch_metadata` (src/utils/metadata.py, lines 300–589): the resolver.
Embeds the album/token guards, the stripped cache key
`artist.lower()|album.lower()`, the positive/negative cache checks, the
three-query cascade, the negative-cache write on no data, and the
selection + positive-cache write on results.  The network is an oracle:
`q1 q2 q3` are the outcomes the three `make_api_request` calls would
return. -/
def fetch_metadata (artist album : String) (title : Option String)
    (apiToken searchUrl : Option String) (q1 q2 q3 : QueryResult)
    (cache : CacheState) : FetchResult :=
  if album.isEmpty then { metadata := none, headers := none, cache := cache, requests := 0 }
  else if optFalsy apiToken || optFalsy searchUrl then
    { metadata := none, headers := none, cache := cache, requests := 0 }
  else
    let artistS := pyStripS artist
    let albumS := pyStripS album
    let titleS := title.map pyStripS
    let key := pyLowerS artistS ++ "|" ++ pyLowerS albumS
    match lookupPos key cache with
    | some md => { metadata := some md, headers := none, cache := cache, requests := 0 }
    | none =>
      if key ∈ cache.failed then
        { metadata := none, headers := none, cache := cache, requests := 0 }
      else
        let titleTry :=
          match titleS with
          | some t => !t.isEmpty && decide (pyLowerS t ≠ pyLowerS albumS)
          | none => false
        let rn := queryPhase titleTry q1 q2 q3
        match rn.1 with
        | none =>
          { metadata := none, headers := none
            cache := { cache with failed := key :: cache.failed }, requests := rn.2 }
        | some (body, hdrs) =>
          if body.results.isEmpty then
            { metadata := none, headers := none
              cache := { cache with failed := key :: cache.failed }, requests := rn.2 }
          else
            match fetch_metadata_select artistS albumS body.results with
            | some md =>
              { metadata := some md, headers := some hdrs
                cache := { cache with pos := (key, md) :: cache.pos }, requests := rn.2 }
            | none =>
              { metadata := none, headers := none, cache := cache, requests := rn.2 }

/-! ## The request executors (src/api_client.py and src/main.py) -/

/-- The network's answer to one HTTP GET: either the request raises a
`requests` exception (timeout, connection failure), or a response arrives
with a status code and an optional `Retry-After` header value.  Successful
bodies are abstract (no claim depends on their content). -/
inductive NetResult where
  | exc : NetResult
  | resp : Nat → Option String → NetResult
deriving DecidableEq

/-- A response (as opposed to a raised exception). -/
def isRespB : NetResult → Bool
  | NetResult.exc => false
  | NetResult.resp _ _ => true

/-- Observable events of an executor run: a rate-limit check
(`enforce_api_limit`), an HTTP GET, a rate-limit update from response
headers, and a `time.sleep`. -/
inductive ApiEvent where
  | acquire : ApiEvent
  | httpGet : ApiEvent
  | observeEv : ApiEvent
  | sleepEv : ApiEvent
deriving DecidableEq

/-- Occurrence count of one event in a trace. -/
def countEv (e : ApiEvent) : List ApiEvent → Nat
  | [] => 0
  | x :: rest => (if x = e then 1 else 0) + countEv e rest

/-- Every `httpGet` in the trace is immediately preceded by an `acquire`
(the boolean argument says whether the previous event was an `acquire`). -/
def guardedAfter : Bool → List ApiEvent → Bool
  | _, [] => true
  | prevAcq, e :: rest =>
    (match e with
     | ApiEvent.httpGet => prevAcq
     | _ => true) &&
    guardedAfter (match e with | ApiEvent.acquire => true | _ => false) rest

/-- A trace in which no GET is issued without an immediately preceding
rate-limit check. -/
def guardedTrace (l : List ApiEvent) : Bool := guardedAfter false l

/-- How a `make_api_request` call in `src/api_client.py` ends: a returned
`(response.json(), response.headers)` pair (identified by the index of the
response that produced it), the `(None, None)` failure, or an uncaught
Python exception escaping the function. -/
inductive ExecOutcome where
  | success : Nat → ExecOutcome
  | failure : ExecOutcome
  | raised : ExecOutcome
deriving DecidableEq

/-- The retry loop of `make_api_request` (src/api_client.py, lines 16–54).
`fuel` is `max_retries - attempts`; `idx` numbers the GETs so the oracle
can script each response.  On 429 the code sleeps `int(Retry-After)`
(default `retry_delay`) and retries; `int()` of an unparsable header value
raises an uncaught `ValueError` (`ExecOutcome.raised`), as does
`time.sleep` of a negative duration.  `response.raise_for_status()` raises
`requests.HTTPError` for 4xx/5xx, which the `except RequestException`
clause catches like a network failure: sleep `retry_delay` and retry while
attempts remain.  A non-error status returns the parsed body (the model
takes `response.json()` to parse; no claim concerns malformed bodies). -/
def apiAux (oracle : Nat → NetResult) (retryDelay : Int) :
    Nat → Nat → List ApiEvent × ExecOutcome
  | 0, _ => ([], ExecOutcome.failure)
  | fuel + 1, idx =>
    match oracle idx with
    | NetResult.exc =>
      if fuel = 0 then ([ApiEvent.httpGet], ExecOutcome.failure)
      else if retryDelay < 0 then ([ApiEvent.httpGet], ExecOutcome.raised)
      else
        let r := apiAux oracle retryDelay fuel (idx + 1)
        (ApiEvent.httpGet :: ApiEvent.sleepEv :: r.1, r.2)
    | NetResult.resp status retryAfter =>
      if status = 429 then
        let w : Option Int :=
          match retryAfter with
          | none => some retryDelay
          | some sv => pyIntParse sv
        match w with
        | none => ([ApiEvent.httpGet], ExecOutcome.raised)
        | some wv =>
          if wv < 0 then ([ApiEvent.httpGet], ExecOutcome.raised)
          else
            let r := apiAux oracle retryDelay fuel (idx + 1)
            (ApiEvent.httpGet :: ApiEvent.sleepEv :: r.1, r.2)
      else if 400 ≤ status ∧ status < 600 then
        if fuel = 0 then ([ApiEvent.httpGet], ExecOutcome.failure)
        else if retryDelay < 0 then ([ApiEvent.httpGet], ExecOutcome.raised)
        else
          let r := apiAux oracle retryDelay fuel (idx + 1)
          (ApiEvent.httpGet :: ApiEvent.sleepEv :: r.1, r.2)
      else ([ApiEvent.httpGet], ExecOutcome.success idx)

/-- `make_api_request` (src/api_client.py): run the retry loop with
`attempts = 0`.  This function performs no `enforce_api_limit` call and no
`update_rate_limits_from_headers` call — its trace can only contain
`httpGet` and `sleepEv` events. -/
def make_api_request (oracle : Nat → NetResult) (maxRetries : Nat)
    (retryDelay : Int) : List ApiEvent × ExecOutcome :=
  apiAux oracle retryDelay maxRetries 0

/-- `make_api_request` (src/main.py, lines 2083–2123), which integrates the
rate limiter: `enforce_api_limit()` before the GET, the header-based
rate-limit update right after every received response, and on 429 a forced
`enforce_api_limit()` wait followed by an unbounded recursive retry.  The
oracle list scripts successive responses (recursion consumes it; an
exhausted oracle ends the run after the rate-limit check).  Returns the
event trace and the oracle entries consumed. -/
def make_api_request_main : List NetResult → List ApiEvent × List NetResult
  | [] => ([ApiEvent.acquire], [])
  | r :: rest =>
    match r with
    | NetResult.exc => ([ApiEvent.acquire, ApiEvent.httpGet], [r])
    | NetResult.resp status _ =>
      if status = 200 then
        ([ApiEvent.acquire, ApiEvent.httpGet, ApiEvent.observeEv], [r])
      else if status = 429 then
        let t := make_api_request_main rest
        (ApiEvent.acquire :: ApiEvent.httpGet :: ApiEvent.observeEv ::
           ApiEvent.acquire :: t.1, r :: t.2)
      else ([ApiEvent.acquire, ApiEvent.httpGet, ApiEvent.observeEv], [r])

/-! ## Statement-level definitions for the claims -/

/-- The specified behaviour of `enforce_api_limit` at state `s` and time
`t`: expired window → reset at `t` and allow; live window with budget →
allow without mutation; live window without budget → sleep exactly
`windowLength - elapsed`, reset at the post-sleep time, allow. -/
def EnforceSpec (s : RLState) (t : Rat) : Prop :=
  (windowExpiredB s t = true →
     enforce_api_limit s t =
       ({ s with firstRequestTime := t, remaining := s.total, used := 0 }, true, none)) ∧
  (windowExpiredB s t = false → 0 < s.remaining →
     enforce_api_limit s t = (s, true, none)) ∧
  (windowExpiredB s t = false → s.remaining ≤ 0 →
     enforce_api_limit s t =
       ({ s with
            firstRequestTime := t + (API_RATE_LIMIT_WAIT - (t - s.firstRequestTime)),
            remaining := s.total, used := 0 }, true,
        some (API_RATE_LIMIT_WAIT - (t - s.firstRequestTime))))

/-- C1 candidate: `{title: "Artist - Album", catno: "ABC123", year: 1999}`. -/
def releaseC1a : Release := ⟨some "Artist - Album", "ABC123", some "1999", "", ""⟩

/-- C1 candidate: `{title: "Artist - Album", catno: "NONE", year: 1985}`. -/
def releaseC1b : Release := ⟨some "Artist - Album", "NONE", some "1985", "", ""⟩

/-- C1 variant of the 1999 candidate with catalog "NONE". -/
def releaseC1c : Release := ⟨some "Artist - Album", "NONE", some "1999", "", ""⟩

/-- C9 candidate that stage 1 keeps: exact title, no catalog, no year. -/
def releaseC9a : Release := ⟨some "a - b", "", none, "", ""⟩

/-- C9 candidate outside the narrowed set but holding a usable catalog. -/
def releaseC9b : Release := ⟨some "zz - ww", "REAL1", none, "", ""⟩

/-- A single candidate with no catalog value and no year (C9 witness). -/
def releaseC9c : Release := ⟨some "x - y", "", none, "", ""⟩

/-- Caches with no entries. -/
def emptyCache : CacheState := ⟨[], []⟩

/-- Concrete rate-limit headers used in the cache examples. -/
def hdrEx : RLHeaders := ⟨some 60, some 59, some 1⟩

/-- A successful query with an empty results list (a completed search that
found nothing). -/
def qEmpty : QueryResult := some (⟨[]⟩, hdrEx)

/-- A successful query returning one matchable candidate. -/
def qOne : QueryResult := some (⟨[⟨some "a - b", "CAT1", none, "", ""⟩]⟩, hdrEx)

/-! ## Helper lemmas -/

/-- The head surviving `dropWhile` fails the predicate. -/
theorem dropWhile_head_false (p : Char → Bool) :
    ∀ (l : List Char) (a : Char) (t : List Char),
      l.dropWhile p = a :: t → p a = false := by
  intro l
  induction l with
  | nil => intro a t h; simp [List.dropWhile] at h
  | cons c cs ih =>
    intro a t h
    rw [List.dropWhile_cons] at h
    by_cases hc : p c = true
    · rw [if_pos hc] at h; exact ih a t h
    · rw [if_neg hc] at h
      cases h
      simpa using hc

/-- `dropEndWhile` only removes elements from the end: the result is a
prefix of the input. -/
theorem dropEndWhile_front (p : Char → Bool) (l : List Char) :
    dropEndWhile p l <+: l := by
  unfold dropEndWhile
  have h1 : l.reverse.dropWhile p <:+ l.reverse := List.dropWhile_suffix p
  obtain ⟨u, hu⟩ := h1
  refine ⟨u.reverse, ?_⟩
  have h2 := congrArg List.reverse hu
  rwa [List.reverse_append, List.reverse_reverse] at h2

/-- The head of a stripped string is not whitespace. -/
theorem stripL_head_not_space (l : List Char) (a : Char) (t : List Char)
    (h : stripL l = a :: t) : isPySpace a = false := by
  unfold stripL at h
  obtain ⟨u, hu⟩ := dropEndWhile_front isPySpace (l.dropWhile isPySpace)
  rw [h] at hu
  exact dropWhile_head_false isPySpace l a (t ++ u) (by simpa using hu.symm)

/-- A non-space character is kept by `removeSpacesS`, so removing spaces
from a list with a non-space head yields a non-empty string. -/
theorem removeSpaces_cons_ne_empty (a : Char) (t : List Char)
    (ha : (a == ' ') = false) : (removeSpacesS ⟨a :: t⟩).data ≠ [] := by
  unfold removeSpacesS
  rw [List.filter_cons_of_pos (by simp [ha])]
  simp

/-- Uppercasing cannot produce a space from a non-space character. -/
theorem upCh_ne_space (c : Char) (h : (c == ' ') = false) :
    (upCh c == ' ') = false := by
  unfold upCh
  cases hf : upPairs.find? (fun p => p.1 == c) with
  | none => exact h
  | some p =>
    have hmem : p ∈ upPairs := List.mem_of_find?_eq_some hf
    have hall : ∀ q ∈ upPairs, (q.2 == ' ') = false := by decide
    exact hall p hmem

/-- `isPySpace a = false` implies `a` is not the space character. -/
theorem ne_space_of_not_pyspace (a : Char) (h : isPySpace a = false) :
    (a == ' ') = false := by
  unfold isPySpace at h
  by_cases ha : (a == ' ') = true
  · rw [ha] at h; simp at h
  · simpa using ha

/-- A non-empty stripped string keeps a character after space removal. -/
theorem removeSpaces_strip_ne_empty (s : String)
    (h : (pyStripS s).data ≠ []) : (removeSpacesS (pyStripS s)).data ≠ [] := by
  unfold pyStripS at *
  rcases hl : stripL s.data with _ | ⟨a, t⟩
  · rw [hl] at h; simp at h
  · have ha := ne_space_of_not_pyspace a (stripL_head_not_space s.data a t hl)
    exact removeSpaces_cons_ne_empty a t ha

/-- Space removal after uppercasing a non-empty stripped string is
non-empty. -/
theorem removeSpaces_upper_strip_ne_empty (s : String)
    (h : (pyStripS s).data ≠ []) :
    (removeSpacesS (pyUpperS (pyStripS s))).data ≠ [] := by
  unfold pyStripS pyUpperS at *
  rcases hl : stripL s.data with _ | ⟨a, t⟩
  · rw [hl] at h; simp at h
  · have ha := ne_space_of_not_pyspace a (stripL_head_not_space s.data a t hl)
    exact removeSpaces_cons_ne_empty (upCh a) (t.map upCh) (upCh_ne_space a ha)

/-- A string is `""` exactly when its character list is empty. -/
theorem string_eq_empty_iff (s : String) : s = "" ↔ s.data = [] := by
  cases s
  constructor
  · intro h; simpa using congrArg String.data h
  · intro h; simp_all

/-- `insertByKey` grows the list by one. -/
theorem insertByKey_length (key : Release → Nat) (r : Release) :
    ∀ l : List Release, (insertByKey key r l).length = l.length + 1 := by
  intro l
  induction l with
  | nil => rfl
  | cons x xs ih =>
    unfold insertByKey
    by_cases h : key x ≤ key r
    · simp [h, ih]
    · simp [h]

/-- The insertion sort preserves length. -/
theorem sortByKey_go_length (key : Release → Nat) :
    ∀ (l acc : List Release),
      (l.foldl (fun acc r => insertByKey key r acc) acc).length =
        acc.length + l.length := by
  intro l
  induction l with
  | nil => intro acc; rfl
  | cons x xs ih =>
    intro acc
    simp only [List.foldl_cons]
    rw [ih, insertByKey_length]
    simp only [List.length_cons]
    omega

/-- `sortByKey` preserves length. -/
theorem sortByKey_length (key : Release → Nat) (l : List Release) :
    (sortByKey key l).length = l.length := by
  unfold sortByKey
  rw [sortByKey_go_length]
  simp

/-- A sorted non-empty list is non-empty. -/
theorem sortByKey_ne_nil (key : Release → Nat) (l : List Release) (h : l ≠ []) :
    sortByKey key l ≠ [] := by
  intro hc
  apply h
  have := sortByKey_length key l
  rw [hc] at this
  exact List.length_eq_zero.mp this.symm

/-- `insertDescByCount` grows the list by one. -/
theorem insertDescByCount_length (p : String × Nat) :
    ∀ l : List (String × Nat), (insertDescByCount p l).length = l.length + 1 := by
  intro l
  induction l with
  | nil => rfl
  | cons x xs ih =>
    unfold insertDescByCount
    by_cases h : p.2 ≤ x.2
    · simp [h, ih]
    · simp [h]

/-- The descending count sort preserves length. -/
theorem sortDescByCount_go_length :
    ∀ (l acc : List (String × Nat)),
      (l.foldl (fun acc p => insertDescByCount p acc) acc).length =
        acc.length + l.length := by
  intro l
  induction l with
  | nil => intro acc; rfl
  | cons x xs ih =>
    intro acc
    simp only [List.foldl_cons]
    rw [ih, insertDescByCount_length]
    simp only [List.length_cons]
    omega

/-- Membership through `insertDescByCount`. -/
theorem mem_insertDescByCount (q p : String × Nat) :
    ∀ l : List (String × Nat), q ∈ insertDescByCount p l → q = p ∨ q ∈ l := by
  intro l
  induction l with
  | nil => intro h; simpa [insertDescByCount] using h
  | cons x xs ih =>
    intro h
    unfold insertDescByCount at h
    by_cases hc : p.2 ≤ x.2
    · rw [if_pos hc] at h
      rcases List.mem_cons.mp h with h | h
      · right; exact List.mem_cons.mpr (Or.inl h)
      · rcases ih h with h | h
        · left; exact h
        · right; exact List.mem_cons.mpr (Or.inr h)
    · rw [if_neg hc] at h
      rcases List.mem_cons.mp h with h | h
      · left; exact h
      · right; exact h

/-- Membership through the fold of `sortDescByCount`. -/
theorem mem_sortDescByCount_go (q : String × Nat) :
    ∀ (l acc : List (String × Nat)),
      q ∈ l.foldl (fun acc p => insertDescByCount p acc) acc →
        q ∈ acc ∨ q ∈ l := by
  intro l
  induction l with
  | nil => intro acc h; exact Or.inl h
  | cons x xs ih =>
    intro acc h
    simp only [List.foldl_cons] at h
    rcases ih (insertDescByCount x acc) h with h | h
    · rcases mem_insertDescByCount q x acc h with h | h
      · right; exact List.mem_cons.mpr (Or.inl h)
      · left; exact h
    · right; exact List.mem_cons.mpr (Or.inr h)

/-- Membership through `sortDescByCount`. -/
theorem mem_sortDescByCount (q : String × Nat) (l : List (String × Nat))
    (h : q ∈ sortDescByCount l) : q ∈ l := by
  unfold sortDescByCount at h
  rcases mem_sortDescByCount_go q l [] h with h | h
  · simp at h
  · exact h

/-- De-duplication only keeps elements of the input. -/
theorem mem_dedupFirstAux (x : String) :
    ∀ (l seen : List String), x ∈ dedupFirstAux seen l → x ∈ l := by
  intro l
  induction l with
  | nil => intro seen h; simp [dedupFirstAux] at h
  | cons y ys ih =>
    intro seen h
    unfold dedupFirstAux at h
    by_cases hc : y ∈ seen
    · rw [if_pos hc] at h
      exact List.mem_cons.mpr (Or.inr (ih seen h))
    · rw [if_neg hc] at h
      rcases List.mem_cons.mp h with h | h
      · exact List.mem_cons.mpr (Or.inl h)
      · exact List.mem_cons.mpr (Or.inr (ih (y :: seen) h))

/-- De-duplicating a non-empty list is non-empty. -/
theorem dedupFirst_ne_nil (l : List String) (h : l ≠ []) : dedupFirst l ≠ [] := by
  unfold dedupFirst
  cases l with
  | nil => exact absurd rfl h
  | cons x xs =>
    unfold dedupFirstAux
    rw [if_neg (by simp)]
    simp

/-- The head (with default) of a non-empty list is a member. -/
theorem headD_mem_pairs (l : List (String × Nat)) (d : String × Nat) (h : l ≠ []) :
    l.headD d ∈ l := by
  cases l with
  | nil => exact absurd rfl h
  | cons x xs => simp [List.headD]

/-- `mostCommonTwo` of a non-empty list is non-empty. -/
theorem mostCommonTwo_ne_nil (l : List String) (h : l ≠ []) :
    mostCommonTwo l ≠ [] := by
  have hd := dedupFirst_ne_nil l h
  have hp := List.length_pos.mpr hd
  unfold mostCommonTwo sortDescByCount
  intro hc
  have h1 := congrArg List.length hc
  rw [List.length_take, sortDescByCount_go_length] at h1
  simp only [List.length_nil, Nat.zero_add, List.length_map] at h1
  omega

/-- Elements of `mostCommonTwo l` have their string drawn from `l`. -/
theorem mem_mostCommonTwo (q : String × Nat) (l : List String)
    (h : q ∈ mostCommonTwo l) : q.1 ∈ l := by
  unfold mostCommonTwo at h
  have h2 := mem_sortDescByCount q _ (List.take_subset 2 _ h)
  rcases List.mem_map.mp h2 with ⟨c, hc, rfl⟩
  exact mem_dedupFirstAux c _ [] hc

/-- Every accumulated catalog value survives space removal. -/
theorem mem_allCatalogNumbers_removeSpaces (x : String) (releases : List Release)
    (h : x ∈ allCatalogNumbers releases) : (removeSpacesS x).data ≠ [] := by
  unfold allCatalogNumbers at h
  rcases List.mem_filterMap.mp h with ⟨r, _, hr⟩
  by_cases hc : (!(pyStripS r.catno).isEmpty &&
      decide (pyUpperS (pyStripS r.catno) ≠ "NONE")) = true
  · simp only [hc, if_pos] at hr
    cases hr
    have hne : (pyStripS r.catno).data ≠ [] := by
      intro hd
      have h1 := (Bool.and_eq_true _ _).mp hc |>.1
      rw [Bool.not_eq_true'] at h1
      rw [(string_eq_empty_iff _).mpr hd] at h1
      exact absurd h1 (by decide)
    exact removeSpaces_upper_strip_ne_empty r.catno hne
  · rw [if_neg hc] at hr
    cases hr

/-- A string whose `isEmpty` is `false` has a non-empty character list. -/
theorem data_ne_nil_of_isEmpty_false (s : String) (h : s.isEmpty = false) :
    s.data ≠ [] := by
  intro hd
  rw [(string_eq_empty_iff _).mpr hd] at h
  exact absurd h (by decide)

/-- `normCat` of a string surviving space removal is non-empty. -/
theorem normCat_ne_empty (x : String) (h : (removeSpacesS x).data ≠ []) :
    normCat x ≠ "" := by
  unfold normCat
  intro hc
  rw [string_eq_empty_iff] at hc
  unfold pyUpperS at hc
  simp only [List.map_eq_nil_iff] at hc
  exact h hc

/-- On a non-empty release list, `select_by_frequency` always produces a
selected release together with a non-empty normalized catalog string. -/
theorem select_by_frequency_spec (l : List Release) (h : l ≠ []) :
    ∃ r c, select_by_frequency l = (some r, some c) ∧ c ≠ "" := by
  simp only [select_by_frequency]
  by_cases he : (allCatalogNumbers l).isEmpty = true
  · rw [if_pos he]
    cases hf : l.find? (fun r => !(pyStripS r.catno).isEmpty) with
    | some r =>
      refine ⟨r, normCat (pyStripS r.catno), rfl, ?_⟩
      have hp := List.find?_some hf
      rw [Bool.not_eq_true'] at hp
      exact normCat_ne_empty _ (removeSpaces_strip_ne_empty _
        (data_ne_nil_of_isEmpty_false _ hp))
    | none =>
      cases l with
      | nil => exact absurd rfl h
      | cons r rest => exact ⟨r, "UNKNOWN", rfl, by decide⟩
  · rw [if_neg he]
    have hn : allCatalogNumbers l ≠ [] := by
      intro hc; rw [hc] at he; exact he rfl
    have hmc := mostCommonTwo_ne_nil _ hn
    have hmem0 : ((mostCommonTwo (allCatalogNumbers l)).headD ("", 0)).1 ∈
        allCatalogNumbers l :=
      mem_mostCommonTwo _ _ (headD_mem_pairs _ _ hmc)
    have hn0 : normCat ((mostCommonTwo (allCatalogNumbers l)).headD ("", 0)).1 ≠ "" :=
      normCat_ne_empty _ (mem_allCatalogNumbers_removeSpaces _ _ hmem0)
    by_cases hbr : ((decide (1 < (mostCommonTwo (allCatalogNumbers l)).length) &&
        decide (normCat ((mostCommonTwo (allCatalogNumbers l)).headD ("", 0)).1 = "NONE")) ||
        decide (normCat ((mostCommonTwo (allCatalogNumbers l)).headD ("", 0)).1 = "")) = true
    · rw [if_pos hbr]
      have hlen : 1 < (mostCommonTwo (allCatalogNumbers l)).length := by
        rcases Bool.or_eq_true _ _ |>.mp hbr with hb | hb
        · exact of_decide_eq_true ((Bool.and_eq_true _ _).mp hb).1
        · exact absurd (of_decide_eq_true hb) hn0
      have hmem1 : ((mostCommonTwo (allCatalogNumbers l)).getD 1 ("", 0)).1 ∈
          allCatalogNumbers l := by
        apply mem_mostCommonTwo
        rw [List.getD_eq_getElem _ _ hlen]
        exact List.getElem_mem hlen
      have hn1 : normCat ((mostCommonTwo (allCatalogNumbers l)).getD 1 ("", 0)).1 ≠ "" :=
        normCat_ne_empty _ (mem_allCatalogNumbers_removeSpaces _ _ hmem1)
      cases hm : l.find? (fun r =>
          decide (removeSpacesS (pyUpperS (pyStripS r.catno)) =
            normCat ((mostCommonTwo (allCatalogNumbers l)).getD 1 ("", 0)).1)) with
      | some r => exact ⟨r, _, rfl, hn1⟩
      | none =>
        cases l with
        | nil => exact absurd rfl h
        | cons r rest => exact ⟨r, _, rfl, hn1⟩
    · rw [if_neg hbr]
      cases hm : l.find? (fun r =>
          decide (removeSpacesS (pyUpperS (pyStripS r.catno)) =
            normCat ((mostCommonTwo (allCatalogNumbers l)).headD ("", 0)).1)) with
      | some r => exact ⟨r, _, rfl, hn0⟩
      | none =>
        cases l with
        | nil => exact absurd rfl h
        | cons r rest => exact ⟨r, _, rfl, hn0⟩

/-- An `if non-empty then that list else fallback` is non-empty whenever the
fallback is. -/
theorem ite_ne_nil_of_ne_nil (a b : List Release) (h : b ≠ []) :
    (if (!a.isEmpty) = true then a else b) ≠ [] := by
  by_cases ha : a.isEmpty = true
  · simp [ha, h]
  · rw [Bool.not_eq_true] at ha
    simp only [ha, Bool.not_false, if_pos]
    intro hc
    rw [hc] at ha
    simp at ha

/-- `targetReleases` of a non-empty candidate list is non-empty (every
fallback stage ends at the full list). -/
theorem targetReleases_ne_nil (artist album : String) (releases : List Release)
    (h : releases ≠ []) : targetReleases artist album releases ≠ [] := by
  simp only [targetReleases]
  exact ite_ne_nil_of_ne_nil _ _ (ite_ne_nil_of_ne_nil _ _ h)

/-- `filteredReleases` of a non-empty candidate list is non-empty. -/
theorem filteredReleases_ne_nil (artist album : String) (releases : List Release)
    (h : releases ≠ []) : filteredReleases artist album releases ≠ [] := by
  have ht := targetReleases_ne_nil artist album releases h
  simp only [filteredReleases]
  by_cases h1 : (exactAlbumTitleMatches album (targetReleases artist album releases)).isEmpty = true
  · simp only [h1, Bool.not_true]
    rw [if_neg (by simp)]
    exact ite_ne_nil_of_ne_nil _ _ ht
  · rw [Bool.not_eq_true] at h1
    simp only [h1, Bool.not_false]
    rw [if_pos trivial]
    refine ite_ne_nil_of_ne_nil _ _ ?_
    intro hc
    rw [hc] at h1
    simp at h1

/-- The year branch of the matcher always produces a selected release and a
non-empty normalized catalog when its inputs are non-empty. -/
theorem yearBranch_spec (artist : String) (eam etm filtered rwy : List Release)
    (hf : filtered ≠ []) (hr : rwy ≠ []) :
    ∃ r c, yearBranch artist eam etm filtered rwy = (some r, some c) ∧ c ≠ "" := by
  simp only [yearBranch]
  have hs := sortByKey_ne_nil yearKey rwy hr
  cases hfind : (sortByKey yearKey rwy).find? (fun r => oldestOkB artist eam r) with
  | some o =>
    simp only [hfind]
    by_cases hc : (!(pyStripS o.catno).isEmpty &&
        decide (pyUpperS (pyStripS o.catno) ≠ "NONE")) = true
    · rw [if_pos hc]
      refine ⟨o, _, rfl, ?_⟩
      have h1 := (Bool.and_eq_true _ _).mp hc |>.1
      rw [Bool.not_eq_true'] at h1
      exact normCat_ne_empty _ (removeSpaces_strip_ne_empty _
        (data_ne_nil_of_isEmpty_false _ h1))
    · rw [if_neg hc]
      by_cases hc2 : (!etm.isEmpty && decide (o ∈ etm)) = true
      · rw [if_pos hc2]
        exact ⟨o, "NONE", rfl, by decide⟩
      · rw [if_neg hc2]
        exact select_by_frequency_spec filtered hf
  | none =>
    simp only [hfind]
    cases hsort : sortByKey yearKey rwy with
    | nil => exact absurd hsort hs
    | cons o rest =>
      simp only [List.head?]
      by_cases hc : (!(pyStripS o.catno).isEmpty &&
          decide (pyUpperS (pyStripS o.catno) ≠ "NONE")) = true
      · rw [if_pos hc]
        refine ⟨o, _, rfl, ?_⟩
        have h1 := (Bool.and_eq_true _ _).mp hc |>.1
        rw [Bool.not_eq_true'] at h1
        exact normCat_ne_empty _ (removeSpaces_strip_ne_empty _
          (data_ne_nil_of_isEmpty_false _ h1))
      · rw [if_neg hc]
        by_cases hc2 : (!etm.isEmpty && decide (o ∈ etm)) = true
        · rw [if_pos hc2]
          exact ⟨o, "NONE", rfl, by decide⟩
        · rw [if_neg hc2]
          exact select_by_frequency_spec filtered hf

/-- On a non-empty result list the matcher always selects a release and
builds a metadata record. -/
theorem fetch_metadata_select_isSome (artist album : String)
    (releases : List Release) (h : releases ≠ []) :
    (fetch_metadata_select artist album releases).isSome = true := by
  simp only [fetch_metadata_select]
  have hf := filteredReleases_ne_nil artist album releases h
  rw [if_neg (by simpa using hf)]
  have hsel : ∃ r c,
      (if !((filteredReleases artist album releases).filter hasDigitYear).isEmpty then
        yearBranch artist (exactAlbumMatches artist album releases)
          (exactAlbumTitleMatches album (targetReleases artist album releases))
          (filteredReleases artist album releases)
          ((filteredReleases artist album releases).filter hasDigitYear)
      else select_by_frequency (filteredReleases artist album releases)) =
        (some r, some c) ∧ c ≠ "" := by
    by_cases hy : (((filteredReleases artist album releases).filter hasDigitYear)).isEmpty
    · rw [hy]
      simp only [Bool.not_true, if_false]
      exact select_by_frequency_spec _ hf
    · rw [Bool.not_eq_true] at hy
      rw [hy]
      simp only [Bool.not_false, if_true]
      refine yearBranch_spec artist _ _ _ _ hf ?_
      intro hc
      rw [hc] at hy
      simp at hy
  obtain ⟨r, c, hrc, hcne⟩ := hsel
  rw [hrc]
  simp [hcne]

/-- In the main-module executor, every GET is immediately preceded by a
rate-limit check, whatever preceded the call. -/
theorem guardedAfter_main (o : List NetResult) :
    ∀ b, guardedAfter b (make_api_request_main o).1 = true := by
  induction o with
  | nil => intro b; rfl
  | cons r rest ih =>
    intro b
    cases r with
    | exc => rfl
    | resp status ra =>
      simp only [make_api_request_main]
      by_cases h200 : status = 200
      · rw [if_pos h200]; rfl
      · rw [if_neg h200]
        by_cases h429 : status = 429
        · rw [if_pos h429]
          simp only [guardedAfter, Bool.true_and]
          exact ih true
        · rw [if_neg h429]; rfl

/-- In the main-module executor, the header update runs exactly once per
received response, and each consumed oracle entry corresponds to one GET. -/
theorem main_counts (o : List NetResult) :
    countEv ApiEvent.observeEv (make_api_request_main o).1 =
      ((make_api_request_main o).2.filter isRespB).length ∧
    countEv ApiEvent.httpGet (make_api_request_main o).1 =
      (make_api_request_main o).2.length := by
  induction o with
  | nil => exact ⟨rfl, rfl⟩
  | cons r rest ih =>
    cases r with
    | exc => exact ⟨rfl, rfl⟩
    | resp status ra =>
      simp only [make_api_request_main]
      by_cases h200 : status = 200
      · rw [if_pos h200]; exact ⟨rfl, rfl⟩
      · rw [if_neg h200]
        by_cases h429 : status = 429
        · rw [if_pos h429]
          constructor
          · simp only [countEv, List.filter, isRespB]
            simp [ih.1]
            omega
          · simp only [countEv, List.length_cons]
            simp [ih.2]
            omega
        · rw [if_neg h429]; exact ⟨rfl, rfl⟩

/-- The api_client executor's trace never contains a rate-limit check or a
header update. -/
theorem apiAux_no_acquire_observe (oracle : Nat → NetResult) (rd : Int) :
    ∀ (fuel idx : Nat),
      countEv ApiEvent.acquire (apiAux oracle rd fuel idx).1 = 0 ∧
      countEv ApiEvent.observeEv (apiAux oracle rd fuel idx).1 = 0 := by
  intro fuel
  induction fuel with
  | zero => intro idx; exact ⟨rfl, rfl⟩
  | succ n ih =>
    intro idx
    cases horc : oracle idx with
    | exc =>
      by_cases h0 : n = 0
      · simp [apiAux, horc, h0, countEv]
      · by_cases hrd : rd < 0
        · simp [apiAux, horc, h0, hrd, countEv]
        · simp [apiAux, horc, h0, hrd, countEv, (ih (idx + 1)).1, (ih (idx + 1)).2]
    | resp status ra =>
      by_cases h429 : status = 429
      · cases ra with
        | none =>
          by_cases hwv : rd < 0
          · simp [apiAux, horc, h429, hwv, countEv]
          · simp [apiAux, horc, h429, hwv, countEv,
              (ih (idx + 1)).1, (ih (idx + 1)).2]
        | some sv =>
          cases hw : pyIntParse sv with
          | none => simp [apiAux, horc, h429, hw, countEv]
          | some wv =>
            by_cases hwv : wv < 0
            · simp [apiAux, horc, h429, hw, hwv, countEv]
            · simp [apiAux, horc, h429, hw, hwv, countEv,
                (ih (idx + 1)).1, (ih (idx + 1)).2]
      · by_cases herr : 400 ≤ status ∧ status < 600
        · by_cases h0 : n = 0
          · simp [apiAux, horc, h429, herr, h0, countEv]
          · by_cases hrd : rd < 0
            · simp [apiAux, horc, h429, herr, h0, hrd, countEv]
            · simp [apiAux, horc, h429, herr, h0, hrd, countEv,
                (ih (idx + 1)).1, (ih (idx + 1)).2]
        · simp [apiAux, horc, h429, herr, countEv]

/-- Stage-1 matches are drawn from the candidate list. -/
theorem exactAlbumMatches_subset (artist album : String) (rl : List Release) :
    exactAlbumMatches artist album rl ⊆ rl := by
  unfold exactAlbumMatches
  exact (List.filter_sublist rl).subset

/-- Artist-only matches are drawn from the candidate list. -/
theorem exactArtistMatches_subset (artist : String) (rl : List Release) :
    exactArtistMatches artist rl ⊆ rl := by
  unfold exactArtistMatches
  exact (List.filter_sublist rl).subset

/-- Exact-title matches are drawn from their input list. -/
theorem exactAlbumTitleMatches_subset (album : String) (rl : List Release) :
    exactAlbumTitleMatches album rl ⊆ rl := by
  unfold exactAlbumTitleMatches
  exact (List.filter_sublist rl).subset

/-- `targetReleases` is drawn from the candidate list. -/
theorem targetReleases_subset (artist album : String) (rl : List Release) :
    targetReleases artist album rl ⊆ rl := by
  simp only [targetReleases]
  split
  · exact exactAlbumMatches_subset artist album rl
  · split
    · exact exactArtistMatches_subset artist rl
    · exact fun x hx => hx

/-- `filteredReleases` is drawn from the candidate list. -/
theorem filteredReleases_subset (artist album : String) (rl : List Release) :
    filteredReleases artist album rl ⊆ rl := by
  have ht := targetReleases_subset artist album rl
  have he := exactAlbumTitleMatches_subset album (targetReleases artist album rl)
  simp only [filteredReleases]
  split
  · split
    · exact fun x hx => ht (he ((List.filter_sublist _).subset hx))
    · exact fun x hx => ht (he hx)
  · split
    · exact fun x hx => ht ((List.filter_sublist _).subset hx)
    · exact ht

/-- The query cascade issues between one and three requests. -/
theorem queryPhase_snd_le_three (tt : Bool) (q1 q2 q3 : QueryResult) :
    (queryPhase tt q1 q2 q3).2 ≤ 3 := by
  unfold queryPhase
  repeat' split
  all_goals omega

/-- One `fetch_metadata` call issues at most three search requests. -/
theorem fetch_metadata_requests_le_three (artist album : String)
    (title : Option String) (apiToken searchUrl : Option String)
    (q1 q2 q3 : QueryResult) (cache : CacheState) :
    (fetch_metadata artist album title apiToken searchUrl q1 q2 q3 cache).requests ≤ 3 := by
  simp only [fetch_metadata]
  repeat' split
  all_goals simp [queryPhase_snd_le_three]

/-- After any `fetch_metadata` call, an immediate repeat call with the same
artist, album, title and credentials issues no network request: every exit
path either leaves the caches untouched having answered from them (or from
the guard clauses), or records the key in one of the two caches. -/
theorem fetch_metadata_second_requests_zero (artist album : String)
    (title : Option String) (apiToken searchUrl : Option String)
    (q1 q2 q3 q1' q2' q3' : QueryResult) (cache : CacheState) :
    (fetch_metadata artist album title apiToken searchUrl q1' q2' q3'
      (fetch_metadata artist album title apiToken searchUrl q1 q2 q3 cache).cache).requests
      = 0 := by
  by_cases ha : album.isEmpty = true
  · simp [fetch_metadata, ha]
  · by_cases hfz : (optFalsy apiToken || optFalsy searchUrl) = true
    · simp [fetch_metadata, ha, hfz]
    · cases hl : lookupPos
          (pyLowerS (pyStripS artist) ++ "|" ++ pyLowerS (pyStripS album)) cache with
      | some md => simp [fetch_metadata, ha, hfz, hl]
      | none =>
        by_cases hneg : (pyLowerS (pyStripS artist) ++ "|" ++ pyLowerS (pyStripS album))
            ∈ cache.failed
        · simp [fetch_metadata, ha, hfz, hl, hneg]
        · simp only [lookupPos, Option.map_eq_none'] at hl
          have hinner :
              (fetch_metadata artist album title apiToken searchUrl q1 q2 q3 cache).cache =
                ⟨cache.pos, (pyLowerS (pyStripS artist) ++ "|" ++ pyLowerS (pyStripS album))
                  :: cache.failed⟩ ∨
              ∃ md,
                (fetch_metadata artist album title apiToken searchUrl q1 q2 q3 cache).cache =
                  ⟨((pyLowerS (pyStripS artist) ++ "|" ++ pyLowerS (pyStripS album)), md)
                    :: cache.pos, cache.failed⟩ := by
            simp only [fetch_metadata]
            simp [ha, hfz, lookupPos, hl, hneg]
            split
            · left; rfl
            · split
              · left; rfl
              · split
                · right; exact ⟨_, rfl⟩
                · rename_i x1 body hdrs hq hres x2 hsel
                  have hs := fetch_metadata_select_isSome (pyStripS artist)
                    (pyStripS album) body.results hres
                  rw [hsel] at hs
                  simp at hs
          rcases hinner with hc | ⟨md, hc⟩
          · rw [hc]
            simp [fetch_metadata, ha, hfz, lookupPos, hl]
          · rw [hc]
            simp [fetch_metadata, ha, hfz, lookupPos, List.find?]

/-! ## Claim theorems -/

/-- C1 counterexample: on the candidate list
`[{title:"Artist - Album", catno:"ABC123", year:1999},
{title:"Artist - Album", catno:"NONE", year:1985}]` with query
(artist="Artist", album="Album") the matcher does NOT return the placeholder
"NONE" and does NOT select the 1985 record: the stage-2 narrowing keeps
only exact-title matches with usable catalogs, which removes the 1985
record before the oldest-first rule is applied. -/
theorem fetch_metadata_select_c1_not_none :
    (fetch_metadata_select "Artist" "Album" [releaseC1a, releaseC1b]).map
        FetchedMetadata.catalog_number ≠ some "NONE" ∧
      (fetch_metadata_select "Artist" "Album" [releaseC1a, releaseC1b]).map
        FetchedMetadata.year ≠ some "1985" := by
  decide

/-- C1 (amended): for the candidate list
`[{title:"Artist - Album", catno:"ABC123", year:1999},
{title:"Artist - Album", catno:"NONE", year:1985}]` and query
(artist="Artist", album="Album"), the stage-2 narrowing keeps only the
exact-title match with the usable catalog, so the matcher selects the 1999
record and returns catalog "ABC123"; only when no exact-title match carries
a usable catalog (both candidates "NONE") does the oldest-first rule select
the 1985 record and accept the placeholder "NONE". -/
theorem fetch_metadata_select_c1_result :
    fetch_metadata_select "Artist" "Album" [releaseC1a, releaseC1b] =
        some ⟨"ABC123", "1999", "Artist - Album", "", ""⟩ ∧
      fetch_metadata_select "Artist" "Album" [releaseC1b, releaseC1c] =
        some ⟨"NONE", "1985", "Artist - Album", "", ""⟩ := by
  decide

/-- C9 counterexample: with candidates
`[{title:"a - b", catno:"", no year}, {title:"zz - ww", catno:"REAL1"}]`
and query (artist="a", album="b"), steps 1–5 yield no usable catalog
number, yet the matcher returns the placeholder "UNKNOWN" — it neither
rescans the full original candidate list (which holds the usable "REAL1")
nor reports "no match". -/
theorem fetch_metadata_select_c9_unknown_placeholder :
    (fetch_metadata_select "a" "b" [releaseC9a, releaseC9b]).map
        FetchedMetadata.catalog_number = some "UNKNOWN" ∧
      (some "UNKNOWN" : Option String) ≠ some "REAL1" ∧
      fetch_metadata_select "a" "b" [releaseC9a, releaseC9b] ≠ none := by
  decide

/-- C9 (amended): the matcher reports "no match" only for an empty
candidate list; when no candidate carries any catalog value (all strip to
`""`) and none carries a digit year, `select_by_frequency`'s own fallback
supplies the first narrowed candidate with the placeholder catalog
"UNKNOWN" instead of rescanning the original list or returning none. -/
theorem fetch_metadata_select_last_resort :
    (∀ artist album : String, fetch_metadata_select artist album [] = none) ∧
    ∀ (artist album : String) (releases : List Release), releases ≠ [] →
      (∀ r ∈ releases, pyStripS r.catno = "") →
      (∀ r ∈ releases, hasDigitYear r = false) →
      ∃ md, fetch_metadata_select artist album releases = some md ∧
        md.catalog_number = "UNKNOWN" := by
  constructor
  · intro artist album
    rfl
  · intro artist album releases h hcat hyear
    have hf := filteredReleases_ne_nil artist album releases h
    have hsub := filteredReleases_subset artist album releases
    have hcat' : ∀ r ∈ filteredReleases artist album releases, pyStripS r.catno = "" :=
      fun r hr => hcat r (hsub hr)
    have hyear' : ∀ r ∈ filteredReleases artist album releases, hasDigitYear r = false :=
      fun r hr => hyear r (hsub hr)
    have hrwy : (filteredReleases artist album releases).filter hasDigitYear = [] :=
      List.filter_eq_nil_iff.mpr (fun r hr => by simp [hyear' r hr])
    have hall : allCatalogNumbers (filteredReleases artist album releases) = [] := by
      apply List.filterMap_eq_nil_iff.mpr
      intro r hr
      simp only [hcat' r hr]
      decide
    have hfind : (filteredReleases artist album releases).find?
        (fun r => !(pyStripS r.catno).isEmpty) = none := by
      apply List.find?_eq_none.mpr
      intro r hr
      simp only [hcat' r hr]
      decide
    cases hflt : filteredReleases artist album releases with
    | nil => exact absurd hflt hf
    | cons r0 rest =>
      refine ⟨⟨"UNKNOWN", r0.year.getD "", r0.title.getD album,
        r0.cover_image, r0.thumb⟩, ?_, rfl⟩
      rw [hflt] at hrwy hall hfind
      simp only [fetch_metadata_select, hflt]
      simp [select_by_frequency, hrwy, hall, hfind]

/-- C9 witness: a concrete single-candidate list with no catalog value and
no year, run through the amended last-resort statement. -/
theorem fetch_metadata_select_last_resort_witness :
    (([releaseC9c] : List Release) ≠ [] ∧
      (∀ r ∈ [releaseC9c], pyStripS r.catno = "") ∧
      (∀ r ∈ [releaseC9c], hasDigitYear r = false)) ∧
    ∃ md, fetch_metadata_select "ab" "cd" [releaseC9c] = some md ∧
      md.catalog_number = "UNKNOWN" :=
  ⟨⟨by decide, by decide, by decide⟩,
    fetch_metadata_select_last_resort.2 "ab" "cd" [releaseC9c]
      (by decide) (by decide) (by decide)⟩

/-- C2 counterexample: the executor in src/api_client.py issues its HTTP
GET with no prior rate-limit check and performs no header update: on a
single successful response its entire event trace is one bare GET, with
zero acquire and zero observe events. -/
theorem make_api_request_no_rate_limit_calls :
    (make_api_request (fun _ => NetResult.resp 200 none) 3 2).1 = [ApiEvent.httpGet] ∧
    countEv ApiEvent.acquire
      (make_api_request (fun _ => NetResult.resp 200 none) 3 2).1 = 0 ∧
    countEv ApiEvent.observeEv
      (make_api_request (fun _ => NetResult.resp 200 none) 3 2).1 = 0 := by
  decide

/-- C2 (amended): the claimed discipline holds for the main-module executor
(src/main.py): every GET it issues is immediately preceded by an
`enforce_api_limit` call, and the rate-limit headers of every received
response (success, 429 or other status; not a raised exception) are read
exactly once; the api_client.py executor itself performs neither — its
trace never contains a rate-limit check or a header update, whatever the
oracle, retry bound and delay. -/
theorem executor_rate_limit_discipline :
    (∀ o : List NetResult,
       guardedTrace (make_api_request_main o).1 = true ∧
       countEv ApiEvent.observeEv (make_api_request_main o).1 =
         ((make_api_request_main o).2.filter isRespB).length ∧
       countEv ApiEvent.httpGet (make_api_request_main o).1 =
         (make_api_request_main o).2.length) ∧
    ∀ (oracle : Nat → NetResult) (maxRetries : Nat) (rd : Int),
      countEv ApiEvent.acquire (make_api_request oracle maxRetries rd).1 = 0 ∧
      countEv ApiEvent.observeEv (make_api_request oracle maxRetries rd).1 = 0 :=
  ⟨fun o => ⟨guardedAfter_main o false, (main_counts o).1, (main_counts o).2⟩,
   fun oracle maxRetries rd => apiAux_no_acquire_observe oracle rd maxRetries 0⟩

/-- C4 counterexample: with HTTP 500 responses, the api_client.py executor
issues three GETs — it retries after the first non-429 error instead of
returning immediately — and ends in the generic (None, None) failure. -/
theorem make_api_request_500_three_gets :
    countEv ApiEvent.httpGet
      (make_api_request (fun _ => NetResult.resp 500 none) 3 2).1 = 3 ∧
    (make_api_request (fun _ => NetResult.resp 500 none) 3 2).2 =
      ExecOutcome.failure := by
  decide

/-- C4 (amended): in src/api_client.py a non-429 HTTP 4xx/5xx response
raises through `raise_for_status` and is caught by the
`except RequestException` handler, so it is retried like a network failure:
with such responses throughout, the executor issues all three GETs with a
sleep between attempts and then returns the generic (None, None) failure —
it does not return after the first error response.  (Only the main.py
variant returns None immediately without retrying a non-429 error.) -/
theorem make_api_request_http_error_retries (status : Nat) (ra : Option String)
    (h1 : 400 ≤ status) (h2 : status < 600) (h3 : status ≠ 429) :
    make_api_request (fun _ => NetResult.resp status ra) 3 2 =
      ([ApiEvent.httpGet, ApiEvent.sleepEv, ApiEvent.httpGet, ApiEvent.sleepEv,
        ApiEvent.httpGet], ExecOutcome.failure) := by
  simp [make_api_request, apiAux, h1, h2, h3]

/-- C4 witness: the amended statement applied at status 500. -/
theorem make_api_request_http_error_retries_witness :
    (400 ≤ 500 ∧ 500 < 600 ∧ 500 ≠ 429) ∧
    make_api_request (fun _ => NetResult.resp 500 none) 3 2 =
      ([ApiEvent.httpGet, ApiEvent.sleepEv, ApiEvent.httpGet, ApiEvent.sleepEv,
        ApiEvent.httpGet], ExecOutcome.failure) :=
  ⟨⟨by decide, by decide, by decide⟩,
   make_api_request_http_error_retries 500 none (by decide) (by decide) (by decide)⟩

/-- C5: the executor evaluated at the failing input.  An HTTP 429 response
whose Retry-After header holds an RFC 7231 HTTP-date (a legal header value)
reaches `int(response.headers.get('Retry-After', retry_delay))`, which
raises an uncaught ValueError: the call dies after its single GET instead
of returning the (None, None) failure — contradicting the claim that the
executor never lets an exception propagate to its caller. -/
theorem make_api_request_retry_after_crash :
    make_api_request
        (fun _ => NetResult.resp 429 (some "Wed, 21 Oct 2015 07:28:00 GMT")) 3 2 =
      ([ApiEvent.httpGet], ExecOutcome.raised) := by
  decide

/-- When none of the three scripted queries has results, neither does the
cascade's final response. -/
theorem queryPhase_no_results (tt : Bool) (q1 q2 q3 : QueryResult)
    (h1 : hasResults q1 = false) (h2 : hasResults q2 = false)
    (h3 : hasResults q3 = false) :
    hasResults (queryPhase tt q1 q2 q3).1 = false := by
  unfold queryPhase
  repeat' split
  all_goals simp_all

/-- C3 counterexample: a pure transport failure — `make_api_request`
returning (None, None) for every query — DOES add the lookup key to the
negative cache: after one failing resolve of ("a", "b") the key "a|b" is in
`failed_search_cache`, and a repeat lookup issues zero network requests
instead of attempting the network again. -/
theorem fetch_metadata_transport_failure_cached :
    (fetch_metadata "a" "b" none (some "t") (some "u") none none none
        emptyCache).metadata = none ∧
    "a|b" ∈ (fetch_metadata "a" "b" none (some "t") (some "u") none none none
        emptyCache).cache.failed ∧
    (fetch_metadata "a" "b" none (some "t") (some "u") none none none
        (fetch_metadata "a" "b" none (some "t") (some "u") none none none
          emptyCache).cache).requests = 0 := by
  decide

/-- C3 (amended): the resolver receives `(None, None)` for a transport
failure and for a completed search with no results alike, and cannot
distinguish them: whenever all issued queries yield no data, the key is
recorded in the negative cache — also after a pure transport failure — and
the result is none; a repeat lookup for that key is then answered from the
negative cache with no network request and returns none again. -/
theorem fetch_metadata_no_data_negative_cache (artist album : String)
    (title : Option String) (apiToken searchUrl : Option String)
    (q1 q2 q3 q1' q2' q3' : QueryResult) (cache : CacheState)
    (ha : album.isEmpty = false)
    (htok : (optFalsy apiToken || optFalsy searchUrl) = false)
    (hpos : lookupPos (pyLowerS (pyStripS artist) ++ "|" ++ pyLowerS (pyStripS album))
      cache = none)
    (hneg : (pyLowerS (pyStripS artist) ++ "|" ++ pyLowerS (pyStripS album))
      ∉ cache.failed)
    (h1 : hasResults q1 = false) (h2 : hasResults q2 = false)
    (h3 : hasResults q3 = false) :
    (fetch_metadata artist album title apiToken searchUrl q1 q2 q3 cache).metadata
        = none ∧
    (fetch_metadata artist album title apiToken searchUrl q1 q2 q3 cache).cache.failed
        = (pyLowerS (pyStripS artist) ++ "|" ++ pyLowerS (pyStripS album))
          :: cache.failed ∧
    (fetch_metadata artist album title apiToken searchUrl q1' q2' q3'
        (fetch_metadata artist album title apiToken searchUrl q1 q2 q3 cache).cache).requests
        = 0 ∧
    (fetch_metadata artist album title apiToken searchUrl q1' q2' q3'
        (fetch_metadata artist album title apiToken searchUrl q1 q2 q3 cache).cache).metadata
        = none := by
  have hq := fun tt => queryPhase_no_results tt q1 q2 q3 h1 h2 h3
  have hl := hpos
  simp only [lookupPos, Option.map_eq_none'] at hl
  have hfirst :
      fetch_metadata artist album title apiToken searchUrl q1 q2 q3 cache =
        { metadata := none, headers := none
          cache := ⟨cache.pos, (pyLowerS (pyStripS artist) ++ "|" ++
            pyLowerS (pyStripS album)) :: cache.failed⟩
          requests := (queryPhase
            (match title.map pyStripS with
             | some t => !t.isEmpty && decide (pyLowerS t ≠ pyLowerS (pyStripS album))
             | none => false) q1 q2 q3).2 } := by
    simp only [fetch_metadata]
    simp [ha, htok, lookupPos, hl, hneg]
    split
    · rfl
    · rename_i x body hdrs heq
      have hres := hq (match title.map pyStripS with
        | some t => !t.isEmpty && !decide (pyLowerS t = pyLowerS (pyStripS album))
        | none => false)
      rw [heq] at hres
      simp only [hasResults] at hres
      rw [Bool.not_eq_false'] at hres
      rw [List.isEmpty_iff] at hres
      simp [hres]
  rw [hfirst]
  refine ⟨rfl, rfl, ?_, ?_⟩ <;>
    simp [fetch_metadata, ha, htok, lookupPos, hl, hneg]

/-- C3 witness: the amended statement at a concrete transport failure — all
three queries return (None, None) — for ("a", "b") on empty caches. -/
theorem fetch_metadata_no_data_negative_cache_witness :
    (("b" : String).isEmpty = false ∧
      (optFalsy (some "t") || optFalsy (some "u")) = false ∧
      lookupPos (pyLowerS (pyStripS "a") ++ "|" ++ pyLowerS (pyStripS "b"))
        emptyCache = none ∧
      (pyLowerS (pyStripS "a") ++ "|" ++ pyLowerS (pyStripS "b"))
        ∉ emptyCache.failed ∧
      hasResults none = false) ∧
    (fetch_metadata "a" "b" none (some "t") (some "u") none none none
        emptyCache).metadata = none ∧
    (fetch_metadata "a" "b" none (some "t") (some "u") none none none
        emptyCache).cache.failed
      = (pyLowerS (pyStripS "a") ++ "|" ++ pyLowerS (pyStripS "b"))
        :: emptyCache.failed ∧
    (fetch_metadata "a" "b" none (some "t") (some "u") none none none
        (fetch_metadata "a" "b" none (some "t") (some "u") none none none
          emptyCache).cache).requests = 0 ∧
    (fetch_metadata "a" "b" none (some "t") (some "u") none none none
        (fetch_metadata "a" "b" none (some "t") (some "u") none none none
          emptyCache).cache).metadata = none :=
  ⟨⟨by decide, by decide, by decide, by decide, by decide⟩,
   fetch_metadata_no_data_negative_cache "a" "b" none (some "t") (some "u")
     none none none none none none emptyCache (by decide) (by decide)
     (by decide) (by decide) (by decide) (by decide) (by decide)⟩

/-- C6 counterexample: with the first query returning a completed search
with no results and the second returning one matchable candidate, the FIRST
resolve call already issues two network requests; the second call issues
none, so two consecutive calls with the same key issue two requests in
total — more than the claimed "at most one". -/
theorem fetch_metadata_two_requests_total :
    (fetch_metadata "a" "b" none (some "t") (some "u") qEmpty qOne qEmpty
        emptyCache).requests = 2 ∧
    (fetch_metadata "a" "b" none (some "t") (some "u") qEmpty qOne qEmpty
        (fetch_metadata "a" "b" none (some "t") (some "u") qEmpty qOne qEmpty
          emptyCache).cache).requests = 0 := by
  decide

/-- C6 (amended): for every (artist, album, title), credential pair,
response oracle and starting caches, the second of two consecutive resolve
calls with identical normalized keys issues no network request — it is
answered from the positive or negative cache (or by the same guard clause
that stopped the first call) — and the first call issues at most three
search requests, so the two calls together issue at most three (not one). -/
theorem fetch_metadata_second_call_cached (artist album : String)
    (title : Option String) (apiToken searchUrl : Option String)
    (q1 q2 q3 q1' q2' q3' : QueryResult) (cache : CacheState) :
    (fetch_metadata artist album title apiToken searchUrl q1' q2' q3'
        (fetch_metadata artist album title apiToken searchUrl q1 q2 q3 cache).cache).requests
      = 0 ∧
    (fetch_metadata artist album title apiToken searchUrl q1 q2 q3 cache).requests ≤ 3 :=
  ⟨fetch_metadata_second_requests_zero artist album title apiToken searchUrl
      q1 q2 q3 q1' q2' q3' cache,
   fetch_metadata_requests_le_three artist album title apiToken searchUrl
      q1 q2 q3 cache⟩

/-- C7 counterexample: `tryAcquire` does not always end by allowing — after
`observe` records a server-reported total budget of 0 (a value the header
branch accepts verbatim), the window-reset branch sets remaining to that
total and `enforce_api_limit` returns False. -/
theorem enforce_api_limit_not_always_allow :
    (enforce_api_limit
        (update_rate_limits_from_headers initRLState (some ⟨some 0, some 0, some 0⟩) 5)
        200).2.1 = false := by
  norm_num [enforce_api_limit, update_rate_limits_from_headers, windowExpiredB,
    initRLState, RATE_LIMIT, API_RATE_LIMIT_WAIT]

/-- C7 (amended): whenever the total budget is positive (the default is
60), `enforce_api_limit` implements exactly the claimed three-way case
split and always ends by allowing: expired or unstarted window — reset
(start := now, remaining := total, used := 0) and allow; live window with
remaining > 0 — allow without any mutation; live window with remaining ≤ 0
— sleep exactly windowLength − elapsed, reset with start at the post-sleep
time, and allow.  Only a (server-reported) total of 0 or less makes the
reset branches report not-allowed. -/
theorem enforce_api_limit_three_way (s : RLState) (t : Rat) (h : 0 < s.total) :
    EnforceSpec s t := by
  unfold EnforceSpec
  refine ⟨?_, ?_, ?_⟩
  · intro hw
    simp [enforce_api_limit, hw, h]
  · intro hw hr
    simp [enforce_api_limit, hw, hr, show ¬s.remaining ≤ 0 by omega]
  · intro hw hr
    simp [enforce_api_limit, hw, hr, h]

/-- C7 witness: the amended statement at the initial state (total = 60) and
time 0. -/
theorem enforce_api_limit_three_way_witness :
    0 < initRLState.total ∧ EnforceSpec initRLState 0 :=
  ⟨by decide, enforce_api_limit_three_way initRLState 0 (by decide)⟩

/-- C8: with all three rate-limit headers present, `observe` overwrites
total, used and remaining with exactly the server-reported values — in
particular remaining is taken from `X-Discogs-Ratelimit-Remaining`, never
recomputed as total − used, for every prior state, time and header triple
(T, U, R), including the claimed {60, 45, 15} and any triple where R
differs from T − U. -/
theorem update_rate_limits_header_values (s : RLState) (t : Rat) (T U R : Int) :
    (update_rate_limits_from_headers s (some ⟨some T, some U, some R⟩) t).total = T ∧
    (update_rate_limits_from_headers s (some ⟨some T, some U, some R⟩) t).used = U ∧
    (update_rate_limits_from_headers s (some ⟨some T, some U, some R⟩) t).remaining = R := by
  simp [update_rate_limits_from_headers]

/-- C10: without an api_token or without a search_url, `fetch_metadata`
returns none immediately: no network request is issued and neither the
positive nor the negative cache is touched — the guard precedes the cache
lookups in the code, and the call returns the caches unchanged with a zero
request count.  (An empty album is also caught before the caches.) -/
theorem fetch_metadata_no_token_no_network (artist album : String)
    (title : Option String) (apiToken searchUrl : Option String)
    (q1 q2 q3 : QueryResult) (cache : CacheState)
    (h : apiToken = none ∨ searchUrl = none) :
    fetch_metadata artist album title apiToken searchUrl q1 q2 q3 cache =
      { metadata := none, headers := none, cache := cache, requests := 0 } := by
  by_cases ha : album.isEmpty = true
  · simp [fetch_metadata, ha]
  · rcases h with h | h <;> subst h <;>
      simp [fetch_metadata, ha, optFalsy, show ("" : String).isEmpty = true by decide]

/-- C10 witness: the statement applied with no api token. -/
theorem fetch_metadata_no_token_no_network_witness :
    ((none : Option String) = none ∨ (some "u" : Option String) = none) ∧
    fetch_metadata "x" "y" none none (some "u") none none none emptyCache =
      { metadata := none, headers := none, cache := emptyCache, requests := 0 } :=
  ⟨Or.inl rfl,
   fetch_metadata_no_token_no_network "x" "y" none none (some "u")
     none none none emptyCache (Or.inl rfl)⟩
